import Mathlib

/-!
Verification development for the LSM gesture-matching server
(`lsm_server.py`, the single-hand variant, and `lsm-server2.py`, the
two-hand variant).

Modelling conventions:
* Floating-point (`np.float32` / Python `float`) arithmetic is idealised as
  real arithmetic (`ℝ`); the geometric pipeline (centering, scaling by a
  Euclidean norm, mirroring) is embedded over `ℝ` because the scale factor
  is a square root.  All protocol-level and evaluator-level values (scores,
  thresholds) are embedded over `ℚ`, keeping them computable and decidable.
* External collaborators (MediaPipe, OpenCV, base64, the Qdrant store, the
  random generator) are modelled at the call boundary: their observable
  outcomes are explicit parameters of the embedded functions.
* Exceptions are modelled by `Option`/`Except`/outcome sum types; an
  embedded function being total corresponds to the Python code catching
  every exception on that path.
-/

set_option maxHeartbeats 2000000

namespace LSM

/-- One MediaPipe hand landmark: camera-normalised (x, y, z) coordinates. -/
structure Keypoint where
  x : ℝ
  y : ℝ
  z : ℝ

/-- The MediaPipe handedness label attached to a detected hand. -/
inductive Handedness where
  | Left : Handedness
  | Right : Handedness
deriving DecidableEq, Repr

/-- A raw detected hand: the 21 landmarks (indices 0..20 are meaningful;
the detector always produces exactly 21) plus the handedness label. -/
structure RawHandPose where
  keypoints : ℕ → Keypoint
  handedness : Handedness

/-- The flat 63-value vector built from the 21 landmarks, in landmark order,
(x, y, z) per landmark — `points.extend([landmark.x, landmark.y, landmark.z])`
followed by `np.array(points)` in both servers. -/
noncomputable def toVector63 (p : RawHandPose) : List ℝ :=
  [(p.keypoints 0).x, (p.keypoints 0).y, (p.keypoints 0).z,
   (p.keypoints 1).x, (p.keypoints 1).y, (p.keypoints 1).z,
   (p.keypoints 2).x, (p.keypoints 2).y, (p.keypoints 2).z,
   (p.keypoints 3).x, (p.keypoints 3).y, (p.keypoints 3).z,
   (p.keypoints 4).x, (p.keypoints 4).y, (p.keypoints 4).z,
   (p.keypoints 5).x, (p.keypoints 5).y, (p.keypoints 5).z,
   (p.keypoints 6).x, (p.keypoints 6).y, (p.keypoints 6).z,
   (p.keypoints 7).x, (p.keypoints 7).y, (p.keypoints 7).z,
   (p.keypoints 8).x, (p.keypoints 8).y, (p.keypoints 8).z,
   (p.keypoints 9).x, (p.keypoints 9).y, (p.keypoints 9).z,
   (p.keypoints 10).x, (p.keypoints 10).y, (p.keypoints 10).z,
   (p.keypoints 11).x, (p.keypoints 11).y, (p.keypoints 11).z,
   (p.keypoints 12).x, (p.keypoints 12).y, (p.keypoints 12).z,
   (p.keypoints 13).x, (p.keypoints 13).y, (p.keypoints 13).z,
   (p.keypoints 14).x, (p.keypoints 14).y, (p.keypoints 14).z,
   (p.keypoints 15).x, (p.keypoints 15).y, (p.keypoints 15).z,
   (p.keypoints 16).x, (p.keypoints 16).y, (p.keypoints 16).z,
   (p.keypoints 17).x, (p.keypoints 17).y, (p.keypoints 17).z,
   (p.keypoints 18).x, (p.keypoints 18).y, (p.keypoints 18).z,
   (p.keypoints 19).x, (p.keypoints 19).y, (p.keypoints 19).z,
   (p.keypoints 20).x, (p.keypoints 20).y, (p.keypoints 20).z]

/-- The strided centering loop `for i in range(0, 63, 3): v[i] -= wrist_x;
v[i+1] -= wrist_y; v[i+2] -= wrist_z`, acting on blocks of three. -/
noncomputable def centerBlocks (wx wy wz : ℝ) : List ℝ → List ℝ
  | x :: y :: z :: rest => (x - wx) :: (y - wy) :: (z - wz) :: centerBlocks wx wy wz rest
  | l => l

/-- `vector_63d` after the translation normalisation: the wrist coordinates
(`vector_63d[0..2]`) subtracted from every landmark. -/
noncomputable def centered63 (p : RawHandPose) : List ℝ :=
  centerBlocks ((toVector63 p).getD 0 0) ((toVector63 p).getD 1 0)
    ((toVector63 p).getD 2 0) (toVector63 p)

/-- `np.linalg.norm(vector_63d[27:30])`: the Euclidean norm of the centered
middle-finger-MCP landmark (landmark 9, flat indices 27..29). -/
noncomputable def scale_factor (c : List ℝ) : ℝ :=
  Real.sqrt ((c.getD 27 0) ^ 2 + (c.getD 28 0) ^ 2 + (c.getD 29 0) ^ 2)

/-- The degeneracy epsilon `1e-6` of both servers. -/
noncomputable def EPS : ℝ := 1 / 1000000

/-- The mirroring loop `for i in range(0, len(v), 3): v[i] *= -1`:
negate every third entry starting with the first. -/
noncomputable def mirrorX : List ℝ → List ℝ
  | x :: y :: z :: rest => x * (-1) :: y :: z :: mirrorX rest
  | [x, y] => [x * (-1), y]
  | [x] => [x * (-1)]
  | [] => []

/-- The shared per-hand core of `get_normalized_hand_vector` in both servers:
center on the wrist, reject a degenerate scale reference, divide by the
scale factor, and drop the wrist block (`vector_63d[3:]`).  Returns `none`
exactly when `scale_factor < 1e-6`. -/
noncomputable def rawNorm60 (p : RawHandPose) : Option (List ℝ) :=
  let c := centered63 p
  let s := scale_factor c
  if s < EPS then none
  else some ((c.map (fun a => a / s)).drop 3)

/-- `get_normalized_hand_vector` of `lsm_server.py` (single-hand server).
The argument models `results.multi_hand_landmarks` paired with
`results.multi_handedness`; the function uses only the first hand.
`(None, None)` returns are modelled by `(none, none)`. -/
noncomputable def get_normalized_hand_vector (results : List RawHandPose) :
    Option (List ℝ) × Option Handedness :=
  match results with
  | [] => (none, none)
  | p :: _ =>
    match rawNorm60 p with
    | none => (none, none)
    | some h60 =>
      (some (if p.handedness = Handedness.Left then mirrorX h60 else h60),
       some p.handedness)

/-! Spec-side description of the normaliser (used for the refinement claim
C1): written from the spec's words, at landmark granularity. -/

/-- Spec step 1 (centering): every keypoint minus the wrist keypoint. -/
noncomputable def centeredKp (p : RawHandPose) (i : ℕ) : Keypoint :=
  ⟨(p.keypoints i).x - (p.keypoints 0).x,
   (p.keypoints i).y - (p.keypoints 0).y,
   (p.keypoints i).z - (p.keypoints 0).z⟩

/-- Spec step 2 (scale reference): the Euclidean norm of the centered
keypoint at index 9. -/
noncomputable def refNorm (p : RawHandPose) : ℝ :=
  Real.sqrt ((centeredKp p 9).x ^ 2 + (centeredKp p 9).y ^ 2 + (centeredKp p 9).z ^ 2)

/-- The 60-value fingerprint assembled from a sign factor `sx` (applied to
every x-component, i.e. every third value starting at the first), a scale
divisor `s`, and the 20 non-wrist centered keypoints `c 1 .. c 20`. -/
noncomputable def specFromParts (sx s : ℝ) (c : ℕ → Keypoint) : List ℝ :=
  [sx * (c 1).x / s, (c 1).y / s, (c 1).z / s,
   sx * (c 2).x / s, (c 2).y / s, (c 2).z / s,
   sx * (c 3).x / s, (c 3).y / s, (c 3).z / s,
   sx * (c 4).x / s, (c 4).y / s, (c 4).z / s,
   sx * (c 5).x / s, (c 5).y / s, (c 5).z / s,
   sx * (c 6).x / s, (c 6).y / s, (c 6).z / s,
   sx * (c 7).x / s, (c 7).y / s, (c 7).z / s,
   sx * (c 8).x / s, (c 8).y / s, (c 8).z / s,
   sx * (c 9).x / s, (c 9).y / s, (c 9).z / s,
   sx * (c 10).x / s, (c 10).y / s, (c 10).z / s,
   sx * (c 11).x / s, (c 11).y / s, (c 11).z / s,
   sx * (c 12).x / s, (c 12).y / s, (c 12).z / s,
   sx * (c 13).x / s, (c 13).y / s, (c 13).z / s,
   sx * (c 14).x / s, (c 14).y / s, (c 14).z / s,
   sx * (c 15).x / s, (c 15).y / s, (c 15).z / s,
   sx * (c 16).x / s, (c 16).y / s, (c 16).z / s,
   sx * (c 17).x / s, (c 17).y / s, (c 17).z / s,
   sx * (c 18).x / s, (c 18).y / s, (c 18).z / s,
   sx * (c 19).x / s, (c 19).y / s, (c 19).z / s,
   sx * (c 20).x / s, (c 20).y / s, (c 20).z / s]

/-- Modelled from the spec's words (C1): subtract the wrist from every
keypoint, divide every centered coordinate by the Euclidean norm of the
centered keypoint at index 9, drop the wrist entry (20 keypoints × 3 = 60
values), and negate the x-component of every value triple when the
handedness label is `Left`. -/
noncomputable def specNormalize (p : RawHandPose) : List ℝ :=
  specFromParts (if p.handedness = Handedness.Left then -1 else 1) (refNorm p)
    (centeredKp p)

/-- Swap `Left` and `Right`. -/
def Handedness.flip : Handedness → Handedness
  | Handedness.Left => Handedness.Right
  | Handedness.Right => Handedness.Left

/-- The exact mirror image of a pose: every keypoint's x negated, carrying
the opposite handedness label. -/
noncomputable def mirrorPose (p : RawHandPose) : RawHandPose :=
  ⟨fun i => ⟨-(p.keypoints i).x, (p.keypoints i).y, (p.keypoints i).z⟩,
   p.handedness.flip⟩

/-- The pose shifted by a constant offset on every keypoint. -/
noncomputable def translatePose (dx dy dz : ℝ) (p : RawHandPose) : RawHandPose :=
  ⟨fun i => ⟨(p.keypoints i).x + dx, (p.keypoints i).y + dy, (p.keypoints i).z + dz⟩,
   p.handedness⟩

/-- Concrete non-degenerate witness pose: wrist at the origin, middle-finger
MCP at (3, 4, 0), so the scale reference is 5. -/
noncomputable def wpose1 : RawHandPose :=
  ⟨fun i => if i = 9 then ⟨3, 4, 0⟩ else ⟨0, 0, 0⟩, Handedness.Right⟩

/-- Concrete fully-degenerate pose: every keypoint at the origin. -/
noncomputable def dpose : RawHandPose := ⟨fun _ => ⟨0, 0, 0⟩, Handedness.Right⟩

/-! Two-hand assembler of `lsm-server2.py`. -/

/-- `VECTOR_DIMENSION_PER_HAND` zeros: a zero-initialised per-hand slot. -/
noncomputable def zeros60 : List ℝ := List.replicate 60 0

/-- One iteration of the hand loop of `get_normalized_hand_vector` in
`lsm-server2.py`: skip a degenerate hand (`continue`), otherwise mirror a
`Left` hand, bump the count, and overwrite the slot matching the hand's
handedness label. The accumulator is (right slot, left slot, count). -/
noncomputable def handStep (acc : List ℝ × List ℝ × ℕ) (p : RawHandPose) :
    List ℝ × List ℝ × ℕ :=
  match rawNorm60 p with
  | none => acc
  | some h60 =>
    let v := if p.handedness = Handedness.Left then mirrorX h60 else h60
    match p.handedness with
    | Handedness.Right => (v, acc.2.1, acc.2.2 + 1)
    | Handedness.Left => (acc.1, v, acc.2.2 + 1)

/-- `get_normalized_hand_vector` of `lsm-server2.py` (two-hand server):
returns `(None, 0)` when no hands were detected, otherwise folds the hand
loop over the detected hands starting from two zero slots and returns the
right-then-left 120-value concatenation plus the usable-hand count.  The
`player_dominance` argument of the Python function is unused by it and
omitted here. -/
noncomputable def get_normalized_hand_vector2 (results : List RawHandPose) :
    Option (List ℝ) × ℕ :=
  match results with
  | [] => (none, 0)
  | _ =>
    let acc := results.foldl handStep (zeros60, zeros60, 0)
    (some (acc.1 ++ acc.2.1), acc.2.2)

/-- The mirrored normalised 60-vector of one hand, `none` when the hand is
degenerate: what the loop body contributes for that hand. -/
noncomputable def usableVec (p : RawHandPose) : Option (List ℝ) :=
  (rawNorm60 p).map
    (fun h60 => if p.handedness = Handedness.Left then mirrorX h60 else h60)

/-- Spec-side slot contents: the contribution of the last non-degenerate
hand carrying the handedness label `h`, or the zero slot when there is
none. -/
noncomputable def slotSpec (h : Handedness) (results : List RawHandPose) : List ℝ :=
  (((results.filter (fun p => p.handedness = h)).filterMap usableVec).getLast?).getD
    zeros60

/-- Spec-side usable-hand count: the number of non-degenerate hands. -/
noncomputable def usableCount (results : List RawHandPose) : ℕ :=
  (results.filterMap usableVec).length

/-! Match evaluator (`validate_sign_against_qdrant` in both servers). -/

/-- Python's `str.upper()` (per-character uppercasing). -/
def pyUpper (s : String) : String := String.mk (s.data.map Char.toUpper)

/-- The Qdrant collection name. -/
def QDRANT_COLLECTION : String := "lsm_signs"

/-- Observable outcome of the guarded Qdrant interaction inside
`validate_sign_against_qdrant`: a successful search returning the scores of
the hits (possibly empty — in particular when no stored point carries the
target label), an `UnexpectedResponse` (collection missing/misconfigured),
or any other exception (e.g. the store is unreachable). -/
inductive QdrantOutcome where
  | results : List ℚ → QdrantOutcome
  | unexpectedResponse : QdrantOutcome
  | otherError : QdrantOutcome
deriving DecidableEq, Repr

/-- Python's fixed-point rendering to one decimal place as in the f-string
`:.1f` (ties at the float level are idealised as round-half-up). -/
def format1 (q : ℚ) : String :=
  let n : ℤ := round (q * 10)
  (if n < 0 then "-" else "") ++ toString (n.natAbs / 10) ++ "." ++ toString (n.natAbs % 10)

/-- Common body of `validate_sign_against_qdrant` in both servers, with the
acceptance threshold as a parameter (the two servers hard-code 0.94 and 0.98
respectively).  The fingerprint is only inspected for `None`-ness, so its
element type is irrelevant. -/
def validate_core {α : Type} (threshold : ℚ) (vector : Option α)
    (target_sign : Option String) (outcome : QdrantOutcome) : Bool × String × ℚ :=
  if vector.isNone ∨ target_sign.isNone then
    (false, "Error de procesamiento o no hay objetivo.", 0)
  else
    match outcome with
    | QdrantOutcome.results hits =>
      let score := hits.head?.getD 0
      let score_percent := score * 100
      if score > threshold then
        (true, "¡Seña Correcta! Similitud: " ++ format1 score_percent ++ "%",
         score_percent)
      else
        (false, "Similitud Insuficiente: " ++ format1 score_percent ++ "%",
         score_percent)
    | QdrantOutcome.unexpectedResponse =>
      (false, "Error Qdrant: Colección \x27" ++ QDRANT_COLLECTION ++ "\x27 no lista.",
       0)
    | QdrantOutcome.otherError =>
      (false, "Error interno del servidor al consultar DB.", 0)

/-- The acceptance threshold of `lsm_server.py` (`score > 0.94`). -/
def THRESHOLD : ℚ := 94 / 100

/-- The acceptance threshold of `lsm-server2.py` (`score > 0.98`). -/
def THRESHOLD2 : ℚ := 98 / 100

/-- `validate_sign_against_qdrant` of `lsm_server.py`. -/
def validate_sign_against_qdrant {α : Type} (vector : Option α)
    (target_sign : Option String) (outcome : QdrantOutcome) : Bool × String × ℚ :=
  validate_core THRESHOLD vector target_sign outcome

/-- `validate_sign_against_qdrant` of `lsm-server2.py`. -/
def validate_sign_against_qdrant2 {α : Type} (vector : Option α)
    (target_sign : Option String) (outcome : QdrantOutcome) : Bool × String × ℚ :=
  validate_core THRESHOLD2 vector target_sign outcome

/-- `_perform_sign_validation` of `lsm-server2.py`: `frameOk = false` models
`cv2.imdecode` returning `None` (the raised `ValueError` is caught and
reported as a vision error); `results` is the detector's output; `outcome`
the Qdrant interaction. -/
noncomputable def perform_sign_validation2 (frameOk : Bool)
    (results : List RawHandPose) (target_sign : String)
    (outcome : QdrantOutcome) : Bool × String × ℚ :=
  if frameOk = false then (false, "Error de Visión: ValueError", 0)
  else
    match get_normalized_hand_vector2 results with
    | (some v, n) =>
      if v ≠ [] ∧ n > 0 then
        validate_sign_against_qdrant2 (some v) (some target_sign) outcome
      else (false, "Mano(s) no detectada(s) por MediaPipe.", 0)
    | (none, _) => (false, "Mano(s) no detectada(s) por MediaPipe.", 0)

/-! Target selector (`get_signs_by_difficulty_from_qdrant` /
`assign_target_sign` of `lsm_server.py`). -/

/-- One stored Qdrant point as seen by the selector: its `sign_name`
payload field (absent keys modelled as `none`) and its `difficulty_level`
payload field. -/
structure SignPoint where
  sign_name : Option String
  difficulty_level : String
deriving DecidableEq, Repr

/-- The `qdrant_client.scroll(..., scroll_filter=flt, limit=500, ...)` call:
the store's points matching the filter (a `MatchValue` condition on
`difficulty_level`, or no filter), truncated to the 500-point page the code
requests. -/
def scrollPoints (store : List SignPoint) (flt : Option String) : List SignPoint :=
  match flt with
  | none => store.take 500
  | some d => (store.filter (fun pt => pt.difficulty_level = d)).take 500

/-- One iteration of the dedup loop: `if sign_name and sign_name not in
signs: signs.append(sign_name)` (Python truthiness: present and
non-empty). -/
def dedupStep (signs : List String) (pt : SignPoint) : List String :=
  match pt.sign_name with
  | some n => if n ≠ "" ∧ n ∉ signs then signs ++ [n] else signs
  | none => signs

/-- The dedup loop over the scrolled points. -/
def dedupSigns (pts : List SignPoint) : List String := pts.foldl dedupStep []

/-- `get_signs_by_difficulty_from_qdrant`: `ok = false` models any exception
in the scroll (the `except` branch returns `[]`).  The `ANY` sentinel and the
filter value are both case-normalised via `.upper()`. -/
def get_signs_by_difficulty_from_qdrant (store : List SignPoint) (ok : Bool)
    (difficulty_level : String) : List String :=
  if ok then
    let flt :=
      if pyUpper difficulty_level = "ANY" then none
      else some (pyUpper difficulty_level)
    dedupSigns (scrollPoints store flt)
  else []

/-- `random.choice`, with the generator's draw modelled as a seed reduced
modulo the list length (uniform over indices for a uniform seed). -/
def random_choice {α : Type} (seed : ℕ) (l : List α) : Option α :=
  l[seed % l.length]?

/-- `assign_target_sign` of `lsm_server.py`. -/
def assign_target_sign (store : List SignPoint) (ok : Bool) (seed : ℕ)
    (difficulty_level : String) : Option String :=
  let signs := get_signs_by_difficulty_from_qdrant store ok difficulty_level
  if signs ≠ [] then random_choice seed signs else none

/-! Session protocol (`process_player_image` in both servers).  One loop
iteration (`async for message in websocket`) is modelled as a step function
from session state and inbound message to new session state plus the list
of replies sent to that connection during the iteration. -/

/-- A successfully parsed inbound JSON object, projected onto the keys the
handlers inspect.  `msg_type` models the `type` key; values are modelled as
the strings the handlers coerce them to. -/
structure JsonMsg where
  msg_type : Option String := none
  command : Option String := none
  sign : Option String := none
  difficulty : Option String := none
  dominance : Option String := none
  player_id : Option String := none
  image_data : Option String := none
  data : Option String := none

/-- An inbound frame: either text that fails `json.loads`, or a parsed
object. -/
inductive Inbound where
  | badJSON : Inbound
  | msg : JsonMsg → Inbound

/-- Session state of `lsm_server.py`: the registry entry
`{"id": ..., "target_sign": ...}` for one connection. -/
structure Session1 where
  id : String
  target_sign : String
deriving DecidableEq, Repr

/-- Session state of `lsm-server2.py`: adds the dominance preference. -/
structure Session2 where
  id : String
  target_sign : String
  dominance : String
deriving DecidableEq, Repr

/-- Replies of `lsm_server.py`, with the JSON fields each reply carries. -/
inductive OutMsg1 where
  | targetSet : String → OutMsg1
  | targetAssigned : String → String → OutMsg1
  | error : String → OutMsg1
  | verdict : Bool → String → String → ℚ → OutMsg1
  | targetStopped : OutMsg1
  | unknown : OutMsg1
deriving DecidableEq, Repr

/-- Replies of `lsm-server2.py`; these echo the stored player id. -/
inductive OutMsg2 where
  | targetSet : String → String → OutMsg2
  | dominanceSet : String → String → OutMsg2
  | error : String → OutMsg2
  | verdict : String → Bool → String → String → ℚ → OutMsg2
  | targetStopped : String → OutMsg2
  | unknown : OutMsg2
deriving DecidableEq, Repr

/-- External outcomes for one `lsm_server.py` step: the target selector
(`assign_target_sign` run in the executor), `base64.b64decode` (failure
carries the exception class name), and the result triple of
`_perform_sign_validation` run in the executor. -/
structure Env1 where
  selector : String → Option String
  b64 : String → Except String Unit
  validation : Bool × String × ℚ

/-- External outcomes for one `lsm-server2.py` step. -/
structure Env2 where
  b64 : String → Except String Unit
  validation : Bool × String × ℚ

/-- Python's `data.get('image_data') or data.get('data')` followed by the
`if not encoded_image` truthiness test: the first present, non-empty
payload, if any. -/
def firstTruthy (a b : Option String) : Option String :=
  match a with
  | some s => if s ≠ "" then some s else (b.filter (fun t => t ≠ ""))
  | none => b.filter (fun t => t ≠ "")

/-- One message-handling iteration of `process_player_image` in
`lsm_server.py`. -/
def step1 (env : Env1) (s : Session1) (inb : Inbound) : Session1 × List OutMsg1 :=
  match inb with
  | Inbound.badJSON => (s, [])
  | Inbound.msg d =>
    let s1 := match d.player_id with
      | some pid => { s with id := pid }
      | none => s
    if (d.msg_type = some "set_target" ∧ d.sign.isSome) ∨
        (pyUpper (d.command.getD "") = "SET_TARGET" ∧ d.sign.isSome) then
      let t := pyUpper (d.sign.getD "")
      ({ s1 with target_sign := t }, [OutMsg1.targetSet t])
    else if d.msg_type = some "assign_target" ∧ d.difficulty.isSome then
      let diff := d.difficulty.getD ""
      match env.selector diff with
      | some t => ({ s1 with target_sign := t }, [OutMsg1.targetAssigned t diff])
      | none =>
        (s1, [OutMsg1.error
          ("Nivel de dificultad \x27" ++ diff ++ "\x27 inválido o no hay señas en Qdrant.")])
    else if d.msg_type = some "image" ∧ s1.target_sign ≠ "NONE" then
      let target := s1.target_sign
      match firstTruthy d.image_data d.data with
      | none => (s1, [OutMsg1.verdict false "Error de Datos: ValueError" target 0])
      | some enc =>
        match env.b64 enc with
        | Except.error cls =>
          (s1, [OutMsg1.verdict false ("Error de Datos: " ++ cls) target 0])
        | Except.ok _ =>
          (s1, [OutMsg1.verdict env.validation.1 env.validation.2.1 target
            env.validation.2.2])
    else if d.msg_type = some "stop_target" ∨
        pyUpper (d.command.getD "") = "STOP_TARGET" then
      ({ s1 with target_sign := "NONE" }, [OutMsg1.targetStopped])
    else
      (s1, [OutMsg1.unknown])

/-- One message-handling iteration of `process_player_image` in
`lsm-server2.py`. -/
def step2 (env : Env2) (s : Session2) (inb : Inbound) : Session2 × List OutMsg2 :=
  match inb with
  | Inbound.badJSON => (s, [])
  | Inbound.msg d =>
    let s1 := match d.player_id with
      | some pid => { s with id := pid }
      | none => s
    if (d.msg_type = some "set_target" ∧ d.sign.isSome) ∨
        (pyUpper (d.command.getD "") = "SET_TARGET" ∧ d.sign.isSome) then
      let t := pyUpper (d.sign.getD "")
      ({ s1 with target_sign := t }, [OutMsg2.targetSet s1.id t])
    else if (d.msg_type = some "player_config" ∧ d.dominance.isSome) ∨
        (pyUpper (d.command.getD "") = "SET_DOMINANCE" ∧ d.dominance.isSome) then
      let nd := pyUpper (d.dominance.getD "")
      if nd = "LEFT" ∨ nd = "RIGHT" then
        ({ s1 with dominance := nd }, [OutMsg2.dominanceSet s1.id nd])
      else
        (s1, [OutMsg2.error "Dominancia inválida. Use \x27LEFT\x27 o \x27RIGHT\x27."])
    else if d.msg_type = some "image" ∧ s1.target_sign ≠ "NONE" then
      let target := s1.target_sign
      match firstTruthy d.image_data d.data with
      | none => (s1, [OutMsg2.verdict s1.id false "Error de Datos: ValueError" target 0])
      | some enc =>
        match env.b64 enc with
        | Except.error cls =>
          (s1, [OutMsg2.verdict s1.id false ("Error de Datos: " ++ cls) target 0])
        | Except.ok _ =>
          (s1, [OutMsg2.verdict s1.id env.validation.1 env.validation.2.1 target
            env.validation.2.2])
    else if d.msg_type = some "stop_target" ∨
        pyUpper (d.command.getD "") = "STOP_TARGET" then
      ({ s1 with target_sign := "NONE" }, [OutMsg2.targetStopped s1.id])
    else
      (s1, [OutMsg2.unknown])

/-- A concrete environment for counterexamples and witnesses: the selector
finds nothing, decoding succeeds, validation reports a failed match. -/
def env0 : Env1 := ⟨fun _ => none, fun _ => Except.ok (), (false, "", 0)⟩

/-- A concrete environment whose base64 decoder always fails with
`binascii.Error` (the class name is `Error`). -/
def envBad : Env1 := ⟨fun _ => none, fun _ => Except.error "Error", (false, "", 0)⟩

/-- The scale check of the code equals the spec's scale reference. -/
lemma scale_factor_centered (p : RawHandPose) :
    scale_factor (centered63 p) = refNorm p := by
  simp [scale_factor, centered63, toVector63, centerBlocks, refNorm, centeredKp]

/-- The per-hand pipeline, unpacked to the spec-side landmark-level form
(before the handedness mirroring step). -/
lemma rawNorm60_spec (p : RawHandPose) (h : ¬ scale_factor (centered63 p) < EPS) :
    rawNorm60 p = some (specFromParts 1 (refNorm p) (centeredKp p)) := by
  rw [rawNorm60]
  simp only [if_neg h]
  rw [scale_factor_centered]
  simp [centered63, toVector63, centerBlocks, specFromParts, centeredKp]

/-- Mirroring the x-components of an assembled fingerprint flips its sign
factor. -/
lemma mirrorX_specFromParts (sx s : ℝ) (c : ℕ → Keypoint) :
    mirrorX (specFromParts sx s c) = specFromParts (-sx) s c := by
  simp only [specFromParts, mirrorX, List.cons.injEq, and_true]
  repeat' apply And.intro
  all_goals ring_nf

/-- The single-hand normaliser, on a non-degenerate pose, produces exactly
the spec-side fingerprint together with the handedness label. -/
lemma gnhv_spec (p : RawHandPose) (h : ¬ scale_factor (centered63 p) < EPS) :
    get_normalized_hand_vector [p] = (some (specNormalize p), some p.handedness) := by
  simp only [get_normalized_hand_vector, rawNorm60_spec p h, specNormalize]
  cases hh : p.handedness <;> simp [hh, mirrorX_specFromParts]

lemma centeredKp_mirror (p : RawHandPose) (i : ℕ) :
    centeredKp (mirrorPose p) i =
      ⟨-(centeredKp p i).x, (centeredKp p i).y, (centeredKp p i).z⟩ := by
  simp only [centeredKp, mirrorPose, Keypoint.mk.injEq]
  refine ⟨by ring, by ring, by ring⟩

lemma refNorm_mirror (p : RawHandPose) : refNorm (mirrorPose p) = refNorm p := by
  simp [refNorm, centeredKp_mirror]

lemma centeredKp_translate (dx dy dz : ℝ) (p : RawHandPose) :
    centeredKp (translatePose dx dy dz p) = centeredKp p := by
  funext i
  simp only [centeredKp, translatePose, Keypoint.mk.injEq]
  refine ⟨by ring, by ring, by ring⟩

lemma refNorm_translate (dx dy dz : ℝ) (p : RawHandPose) :
    refNorm (translatePose dx dy dz p) = refNorm p := by
  simp [refNorm, centeredKp_translate]

lemma specFromParts_negx (sx s : ℝ) (c : ℕ → Keypoint) :
    specFromParts sx s (fun i => ⟨-(c i).x, (c i).y, (c i).z⟩) =
      specFromParts (-sx) s c := by
  simp only [specFromParts, List.cons.injEq, and_true]
  repeat' apply And.intro
  all_goals ring_nf

/-- C1: for every `RawHandPose` (21 keypoints with x, y, z and a handedness
label) whose scale reference is non-degenerate, `get_normalized_hand_vector`
returns the 60-dimensional vector obtained by, in this order: subtracting the
wrist keypoint (index 0) from every keypoint, dividing every centered
coordinate by the Euclidean norm of the centered keypoint at index 9,
dropping the wrist entry (20 keypoints × 3 = 60 values), and, if the
handedness label is `Left`, negating the x-component (every third value
starting at the first) of the remaining 60 values. -/
theorem C1_normalize_refines_spec (p : RawHandPose)
    (h : ¬ scale_factor (centered63 p) < EPS) :
    get_normalized_hand_vector [p] = (some (specNormalize p), some p.handedness) ∧
    (specNormalize p).length = 60 := by
  refine ⟨gnhv_spec p h, ?_⟩
  simp [specNormalize, specFromParts]

lemma wpose1_scale : scale_factor (centered63 wpose1) = 5 := by
  rw [scale_factor_centered]
  rw [show refNorm wpose1 = Real.sqrt (5 ^ 2) from by
    simp only [refNorm, centeredKp, wpose1]
    norm_num]
  exact Real.sqrt_sq (by norm_num)

/-- Witness for C1 at the concrete pose `wpose1`. -/
theorem C1_witness :
    get_normalized_hand_vector [wpose1] =
      (some (specNormalize wpose1), some wpose1.handedness) ∧
    (specNormalize wpose1).length = 60 :=
  C1_normalize_refines_spec wpose1 (by rw [wpose1_scale]; norm_num [EPS])

/-- C2: a pose whose centered middle-finger-MCP keypoint has Euclidean norm
below the epsilon (1e-6) — in particular when it coincides with the wrist —
makes the normaliser fail (no fingerprint is produced), and whenever a
fingerprint is produced the scale divisor is at least the epsilon, hence
strictly positive: no division by zero and (in this real-valued model) no
NaN or infinity can arise. -/
theorem C2_degenerate_rejection :
    (∀ p : RawHandPose, scale_factor (centered63 p) < EPS →
      get_normalized_hand_vector [p] = (none, none)) ∧
    (∀ p : RawHandPose, p.keypoints 9 = p.keypoints 0 →
      get_normalized_hand_vector [p] = (none, none)) ∧
    (∀ (p : RawHandPose) (v : List ℝ) (hd : Option Handedness),
      get_normalized_hand_vector [p] = (some v, hd) →
      EPS ≤ scale_factor (centered63 p) ∧ 0 < scale_factor (centered63 p)) := by
  have reject : ∀ p : RawHandPose, scale_factor (centered63 p) < EPS →
      get_normalized_hand_vector [p] = (none, none) := by
    intro p hp
    simp [get_normalized_hand_vector, rawNorm60, hp]
  refine ⟨reject, ?_, ?_⟩
  · intro p hp
    apply reject
    rw [scale_factor_centered]
    simp only [refNorm, centeredKp, hp]
    rw [show ((p.keypoints 0).x - (p.keypoints 0).x) ^ 2 +
        ((p.keypoints 0).y - (p.keypoints 0).y) ^ 2 +
        ((p.keypoints 0).z - (p.keypoints 0).z) ^ 2 = 0 from by ring]
    rw [Real.sqrt_zero]
    norm_num [EPS]
  · intro p v hd hsome
    by_cases hs : scale_factor (centered63 p) < EPS
    · rw [reject p hs] at hsome
      exact absurd hsome (by simp)
    · have hle := not_lt.mp hs
      exact ⟨hle, lt_of_lt_of_le (by norm_num [EPS]) hle⟩

/-- Witness for C2 at the concrete pose `dpose`, whose middle-finger-MCP
keypoint coincides with the wrist. -/
theorem C2_witness : get_normalized_hand_vector [dpose] = (none, none) :=
  C2_degenerate_rejection.2.1 dpose rfl

/-- C3: for every non-degenerate pose, normalizing the pose and normalizing
its exact mirror image (every keypoint's x negated) carrying the opposite
handedness label yield equal fingerprints (exactly equal, in this
real-valued model). -/
theorem C3_handedness_unification (p : RawHandPose)
    (h : ¬ scale_factor (centered63 p) < EPS) :
    (get_normalized_hand_vector [mirrorPose p]).1 = some (specNormalize p) ∧
    (get_normalized_hand_vector [p]).1 = some (specNormalize p) := by
  have hm : ¬ scale_factor (centered63 (mirrorPose p)) < EPS := by
    rw [scale_factor_centered, refNorm_mirror]
    rwa [scale_factor_centered] at h
  have hc : centeredKp (mirrorPose p) =
      fun i => ⟨-(centeredKp p i).x, (centeredKp p i).y, (centeredKp p i).z⟩ :=
    funext (centeredKp_mirror p)
  rw [gnhv_spec p h, gnhv_spec (mirrorPose p) hm]
  refine ⟨?_, rfl⟩
  simp only []
  congr 1
  rw [specNormalize, specNormalize, hc, refNorm_mirror, specFromParts_negx]
  cases hh : p.handedness <;> simp [mirrorPose, Handedness.flip, hh]

/-- Witness for C3 at the concrete pose `wpose1`. -/
theorem C3_witness :
    (get_normalized_hand_vector [mirrorPose wpose1]).1 = some (specNormalize wpose1) ∧
    (get_normalized_hand_vector [wpose1]).1 = some (specNormalize wpose1) :=
  C3_handedness_unification wpose1 (by rw [wpose1_scale]; norm_num [EPS])

/-- C4: for every non-degenerate pose and every constant offset
(dx, dy, dz), adding the offset to every keypoint before normalizing yields
the same result as normalizing the original pose (exactly equal in this
real-valued model). -/
theorem C4_translation_invariance (p : RawHandPose) (dx dy dz : ℝ)
    (h : ¬ scale_factor (centered63 p) < EPS) :
    get_normalized_hand_vector [translatePose dx dy dz p] =
      get_normalized_hand_vector [p] := by
  have ht : ¬ scale_factor (centered63 (translatePose dx dy dz p)) < EPS := by
    rw [scale_factor_centered, refNorm_translate]
    rwa [scale_factor_centered] at h
  rw [gnhv_spec _ ht, gnhv_spec p h]
  rw [specNormalize, specNormalize, centeredKp_translate, refNorm_translate]
  rfl

/-- Witness for C4 at the concrete pose `wpose1` with offset (1, 2, 3). -/
theorem C4_witness :
    get_normalized_hand_vector [translatePose 1 2 3 wpose1] =
      get_normalized_hand_vector [wpose1] :=
  C4_translation_invariance wpose1 1 2 3 (by rw [wpose1_scale]; norm_num [EPS])

/-- Evaluation of the evaluator on a one-hit search result. -/
lemma validate_core_single {α : Type} (thr : ℚ) (v : α) (t : String) (s : ℚ) :
    validate_core thr (some v) (some t) (QdrantOutcome.results [s]) =
      if s > thr then
        (true, "¡Seña Correcta! Similitud: " ++ format1 (s * 100) ++ "%", s * 100)
      else
        (false, "Similitud Insuficiente: " ++ format1 (s * 100) ++ "%", s * 100) := by
  simp [validate_core]

/-- The threshold properties of the evaluator, for any threshold. -/
lemma validate_core_props {α : Type} (thr : ℚ) (v : α) (t : String) (s : ℚ) :
    ((validate_core thr (some v) (some t) (QdrantOutcome.results [s])).1 = true ↔
        s * 100 > thr * 100) ∧
    (s * 100 = thr * 100 →
      (validate_core thr (some v) (some t) (QdrantOutcome.results [s])).1 = false) ∧
    ((validate_core thr (some v) (some t) (QdrantOutcome.results [s])).2.2 = s * 100) ∧
    (∃ m, (validate_core thr (some v) (some t) (QdrantOutcome.results [s])).2.1 =
        m ++ format1 (s * 100) ++ "%") := by
  rw [validate_core_single]
  by_cases h : s > thr
  · rw [if_pos h]
    refine ⟨Iff.intro (fun _ => by linarith) (fun _ => rfl), ?_, rfl, ⟨_, rfl⟩⟩
    intro he
    exfalso
    have : s = thr := by linarith
    rw [this] at h
    exact lt_irrefl thr h
  · rw [if_neg h]
    refine ⟨Iff.intro (fun hh => absurd hh Bool.false_ne_true) ?_, fun _ => rfl, rfl,
      ⟨_, rfl⟩⟩
    intro hgt
    exact absurd (by linarith : s > thr) h

/-- C5: for a similarity score s in [0, 1] returned by the store for the
target label, both servers' evaluators report score = s·100, return
correct = true exactly when the (percentage) score strictly exceeds the
(percentage) threshold — equality yields false — and embed the score,
formatted to one decimal place, in the feedback string.  The thresholds are
94 and 98 on the percentage scale. -/
theorem C5_threshold_monotonicity {α : Type} (v : α) (t : String) (s : ℚ)
    (h0 : 0 ≤ s) (h1 : s ≤ 1) :
    ((validate_sign_against_qdrant (some v) (some t) (QdrantOutcome.results [s])).1 = true ↔
        s * 100 > THRESHOLD * 100) ∧
    (s * 100 = THRESHOLD * 100 →
      (validate_sign_against_qdrant (some v) (some t) (QdrantOutcome.results [s])).1 = false) ∧
    ((validate_sign_against_qdrant (some v) (some t) (QdrantOutcome.results [s])).2.2 =
        s * 100) ∧
    (∃ m, (validate_sign_against_qdrant (some v) (some t) (QdrantOutcome.results [s])).2.1 =
        m ++ format1 (s * 100) ++ "%") ∧
    ((validate_sign_against_qdrant2 (some v) (some t) (QdrantOutcome.results [s])).1 = true ↔
        s * 100 > THRESHOLD2 * 100) ∧
    (s * 100 = THRESHOLD2 * 100 →
      (validate_sign_against_qdrant2 (some v) (some t) (QdrantOutcome.results [s])).1 = false) ∧
    ((validate_sign_against_qdrant2 (some v) (some t) (QdrantOutcome.results [s])).2.2 =
        s * 100) ∧
    (∃ m, (validate_sign_against_qdrant2 (some v) (some t) (QdrantOutcome.results [s])).2.1 =
        m ++ format1 (s * 100) ++ "%") ∧
    THRESHOLD * 100 = 94 ∧ THRESHOLD2 * 100 = 98 := by
  have P1 := validate_core_props THRESHOLD v t s
  have P2 := validate_core_props THRESHOLD2 v t s
  exact ⟨P1.1, P1.2.1, P1.2.2.1, P1.2.2.2, P2.1, P2.2.1, P2.2.2.1, P2.2.2.2,
    by norm_num [THRESHOLD], by norm_num [THRESHOLD2]⟩

/-- Witness for C5: a perfect similarity of 1 is accepted by the 0.94
threshold of `lsm_server.py`. -/
theorem C5_witness :
    (validate_sign_against_qdrant (some ()) (some "HOLA")
      (QdrantOutcome.results [1])).1 = true := by
  have P := C5_threshold_monotonicity () "HOLA" 1 (by norm_num) (by norm_num)
  exact P.1.mpr (by norm_num [THRESHOLD])

/-- C6: when the search returns no hit (in particular when no stored point
carries the target label), when the store answers with an
`UnexpectedResponse` (collection missing / misconfigured), and when any
other exception occurs (store unreachable), the evaluator returns a
non-raising verdict with correct = false, score 0, and three pairwise
distinct feedback strings, so the misconfigured-store class is
distinguishable from the unreachable-store class (the evaluator is a total
function: no exception escapes it). -/
theorem C6_store_failure_verdicts {α : Type} (v : α) (t : String) :
    validate_sign_against_qdrant (some v) (some t) (QdrantOutcome.results []) =
      (false, "Similitud Insuficiente: " ++ format1 0 ++ "%", 0) ∧
    validate_sign_against_qdrant (some v) (some t) QdrantOutcome.unexpectedResponse =
      (false, "Error Qdrant: Colección \x27" ++ QDRANT_COLLECTION ++ "\x27 no lista.",
       0) ∧
    validate_sign_against_qdrant (some v) (some t) QdrantOutcome.otherError =
      (false, "Error interno del servidor al consultar DB.", 0) ∧
    ("Error Qdrant: Colección \x27" ++ QDRANT_COLLECTION ++ "\x27 no lista." ≠
      "Error interno del servidor al consultar DB.") ∧
    ("Similitud Insuficiente: " ++ format1 0 ++ "%" ≠
      "Error interno del servidor al consultar DB.") ∧
    ("Similitud Insuficiente: " ++ format1 0 ++ "%" ≠
      "Error Qdrant: Colección \x27" ++ QDRANT_COLLECTION ++ "\x27 no lista.") := by
  refine ⟨?_, rfl, rfl, by decide, by decide, by decide⟩
  show validate_core THRESHOLD (some v) (some t) (QdrantOutcome.results []) = _
  norm_num [validate_core, THRESHOLD]

/-- One dedup iteration preserves freedom from duplicates. -/
lemma dedupStep_nodup (signs : List String) (pt : SignPoint) (h : signs.Nodup) :
    (dedupStep signs pt).Nodup := by
  unfold dedupStep
  cases pt.sign_name with
  | none => exact h
  | some n =>
    show (if n ≠ "" ∧ n ∉ signs then signs ++ [n] else signs).Nodup
    by_cases hc : n ≠ "" ∧ n ∉ signs
    · rw [if_pos hc]
      refine h.append (List.nodup_singleton n) ?_
      intro a ha hb
      rw [List.mem_singleton] at hb
      rw [hb] at ha
      exact hc.2 ha
    · rw [if_neg hc]
      exact h

/-- The dedup loop preserves freedom from duplicates. -/
lemma foldl_dedupStep_nodup :
    ∀ (pts : List SignPoint) (acc : List String), acc.Nodup →
      (pts.foldl dedupStep acc).Nodup := by
  intro pts
  induction pts with
  | nil => intro acc h; simpa using h
  | cons p rest ih =>
    intro acc h
    rw [List.foldl_cons]
    exact ih _ (dedupStep_nodup _ _ h)

/-- The selector's label list never contains duplicates. -/
lemma dedupSigns_nodup (pts : List SignPoint) : (dedupSigns pts).Nodup :=
  foldl_dedupStep_nodup pts [] List.nodup_nil

/-- C7: the selector scans the store unfiltered (one 500-point page) when
the tier, case-normalised, is the sentinel ANY, and otherwise filters by an
exact case-normalised tier match; the resulting label list is
duplicate-free; an empty label list makes `assign_target_sign` return
`none`, in which case the protocol replies with the ERROR message and
leaves the session's target unchanged; a non-empty list makes it return the
label at index seed mod length (uniform over the labels for a uniform
seed), and every label of the list is attained by some seed. -/
theorem C7_target_selector (store : List SignPoint) (seed : ℕ) (d : String) :
    (pyUpper d = "ANY" →
      get_signs_by_difficulty_from_qdrant store true d = dedupSigns (store.take 500)) ∧
    (pyUpper d ≠ "ANY" →
      get_signs_by_difficulty_from_qdrant store true d =
        dedupSigns ((store.filter fun pt => pt.difficulty_level = pyUpper d).take 500)) ∧
    (get_signs_by_difficulty_from_qdrant store true d).Nodup ∧
    (get_signs_by_difficulty_from_qdrant store true d = [] →
      assign_target_sign store true seed d = none) ∧
    (∀ lbl ∈ get_signs_by_difficulty_from_qdrant store true d,
      ∃ sd : ℕ, assign_target_sign store true sd d = some lbl) ∧
    (get_signs_by_difficulty_from_qdrant store true d ≠ [] →
      ∃ hlt : seed % (get_signs_by_difficulty_from_qdrant store true d).length <
          (get_signs_by_difficulty_from_qdrant store true d).length,
        assign_target_sign store true seed d =
          some ((get_signs_by_difficulty_from_qdrant store true d).get
            ⟨seed % (get_signs_by_difficulty_from_qdrant store true d).length, hlt⟩)) ∧
    (∀ (b64 : String → Except String Unit) (val : Bool × String × ℚ)
        (s : Session1) (m : JsonMsg) (diff : String),
      m.msg_type = some "assign_target" → m.difficulty = some diff → m.sign = none →
      get_signs_by_difficulty_from_qdrant store true diff = [] →
      (step1 ⟨assign_target_sign store true seed, b64, val⟩ s
          (Inbound.msg m)).1.target_sign = s.target_sign ∧
      (step1 ⟨assign_target_sign store true seed, b64, val⟩ s (Inbound.msg m)).2 =
        [OutMsg1.error ("Nivel de dificultad \x27" ++ diff ++
          "\x27 inválido o no hay señas en Qdrant.")]) := by
  refine ⟨?_, ?_, ?_, ?_, ?_, ?_, ?_⟩
  · intro h
    simp [get_signs_by_difficulty_from_qdrant, h, scrollPoints]
  · intro h
    simp [get_signs_by_difficulty_from_qdrant, h, scrollPoints]
  · have h : get_signs_by_difficulty_from_qdrant store true d =
        dedupSigns (scrollPoints store
          (if pyUpper d = "ANY" then none else some (pyUpper d))) := by
      simp [get_signs_by_difficulty_from_qdrant]
    rw [h]
    exact dedupSigns_nodup _
  · intro h
    simp [assign_target_sign, h]
  · intro lbl hm
    have hne : get_signs_by_difficulty_from_qdrant store true d ≠ [] :=
      List.ne_nil_of_mem hm
    obtain ⟨i, hi, heq⟩ := List.getElem_of_mem hm
    refine ⟨i, ?_⟩
    simp only [assign_target_sign, random_choice, if_pos hne]
    rw [Nat.mod_eq_of_lt hi, List.getElem?_eq_getElem hi, heq]
  · intro hne
    have hlt : seed % (get_signs_by_difficulty_from_qdrant store true d).length <
        (get_signs_by_difficulty_from_qdrant store true d).length :=
      Nat.mod_lt _ (List.length_pos.mpr hne)
    refine ⟨hlt, ?_⟩
    simp only [assign_target_sign, random_choice, if_pos hne]
    rw [List.get_eq_getElem]
    exact List.getElem?_eq_getElem hlt
  · intro b64 val s m diff h1 h2 h3 h4
    have hsel : assign_target_sign store true seed diff = none := by
      simp [assign_target_sign, h4]
    cases hpid : m.player_id <;>
      simp [step1, h1, h2, h3, hsel, hpid]

/-- Witness for C7: a one-point store has no IMPOSSIBLE-tier labels, and
its single label is attainable under the ANY sentinel. -/
theorem C7_witness :
    assign_target_sign [SignPoint.mk (some "HOLA") "EASY"] true 0 "IMPOSSIBLE" = none ∧
    (∃ sd : ℕ,
      assign_target_sign [SignPoint.mk (some "HOLA") "EASY"] true sd "ANY" =
        some "HOLA") := by
  have P1 := C7_target_selector [SignPoint.mk (some "HOLA") "EASY"] 0 "IMPOSSIBLE"
  have P2 := C7_target_selector [SignPoint.mk (some "HOLA") "EASY"] 0 "ANY"
  exact ⟨P1.2.2.2.1 (by decide), P2.2.2.2.2.1 "HOLA" (by decide)⟩

/-- C8 counterexample: with a fresh session and any environment, a message
that fails JSON parsing is answered with NO reply at all (the handler logs
and `continue`s), contradicting the claim that a malformed message body
always "produces an error reply describing the decode failure".  State is
unchanged and the connection stays open, but the reply list is empty. -/
theorem C8_counterexample :
    step1 env0 ⟨"p0", "NONE"⟩ Inbound.badJSON = (⟨"p0", "NONE"⟩, []) := rfl

/-- C8 (amended): a message that fails JSON parsing is silently skipped —
no reply, session state unchanged, connection kept open — while an image
message whose payload cannot be base64-decoded produces an error reply
naming the decode failure class and leaves the session state unchanged,
without terminating the connection. -/
theorem C8_malformed_input (env : Env1) (s : Session1) (d : JsonMsg)
    (enc cls : String) (himg : d.msg_type = some "image") (hsign : d.sign = none)
    (harm : s.target_sign ≠ "NONE")
    (hpay : firstTruthy d.image_data d.data = some enc)
    (hb64 : env.b64 enc = Except.error cls) :
    step1 env s Inbound.badJSON = (s, []) ∧
    (step1 env s (Inbound.msg d)).2 =
      [OutMsg1.verdict false ("Error de Datos: " ++ cls) s.target_sign 0] ∧
    (step1 env s (Inbound.msg d)).1.target_sign = s.target_sign := by
  refine ⟨rfl, ?_, ?_⟩ <;>
    cases hpid : d.player_id <;>
      simp [step1, himg, hsign, harm, hpay, hb64, hpid]

/-- Witness for C8 at a concrete bad-base64 image message. -/
theorem C8_witness :
    (step1 envBad ⟨"p0", "A"⟩
        (Inbound.msg { msg_type := some "image", image_data := some "x" })).2 =
      [OutMsg1.verdict false ("Error de Datos: " ++ "Error") "A" 0] := by
  have P := C8_malformed_input envBad ⟨"p0", "A"⟩
    { msg_type := some "image", image_data := some "x" } "x" "Error"
    rfl rfl (by decide) rfl rfl
  exact P.2.1

/-- Default-carrying `getLast?`: prepending an element shifts it into the
default slot. -/
lemma getLast?_cons_getD {α : Type} :
    ∀ (l : List α) (a d : α), ((a :: l).getLast?).getD d = (l.getLast?).getD a := by
  intro l
  induction l with
  | nil => intro a d; rfl
  | cons b m ih =>
    intro a d
    rw [List.getLast?_cons_cons, ih b d, ih b a]

/-- The hand-loop fold, characterised slot by slot: each slot holds the
contribution of the last usable hand with the matching label (or the
initial slot value), and the count grows by the number of usable hands. -/
lemma foldl_handStep (results : List RawHandPose) :
    ∀ (r0 l0 : List ℝ) (n0 : ℕ),
      results.foldl handStep (r0, l0, n0) =
        ((((results.filter fun p => p.handedness = Handedness.Right).filterMap
            usableVec).getLast?).getD r0,
         (((results.filter fun p => p.handedness = Handedness.Left).filterMap
            usableVec).getLast?).getD l0,
         n0 + usableCount results) := by
  induction results with
  | nil => intro r0 l0 n0; simp [usableCount]
  | cons p rest ih =>
    intro r0 l0 n0
    rw [List.foldl_cons]
    cases hu : rawNorm60 p with
    | none =>
      have hv : usableVec p = none := by simp [usableVec, hu]
      have hstep : handStep (r0, l0, n0) p = (r0, l0, n0) := by simp [handStep, hu]
      rw [hstep, ih]
      cases hh : p.handedness <;> simp [hh, hv, usableCount]
    | some h60 =>
      have hv : usableVec p =
          some (if p.handedness = Handedness.Left then mirrorX h60 else h60) := by
        simp [usableVec, hu]
      cases hh : p.handedness with
      | Right =>
        have hstep : handStep (r0, l0, n0) p = (h60, l0, n0 + 1) := by
          simp [handStep, hu, hh]
        rw [hstep, ih]
        simp only [hh] at hv
        simp [hh, hv, usableCount, getLast?_cons_getD]
        omega
      | Left =>
        have hstep : handStep (r0, l0, n0) p = (r0, mirrorX h60, n0 + 1) := by
          simp [handStep, hu, hh]
        rw [hstep, ih]
        simp only [hh] at hv
        simp [hh, hv, usableCount, getLast?_cons_getD]
        omega

/-- The two-hand assembler, characterised against the spec-side slots. -/
lemma gnhv2_spec (results : List RawHandPose) (hne : results ≠ []) :
    get_normalized_hand_vector2 results =
      (some (slotSpec Handedness.Right results ++ slotSpec Handedness.Left results),
       usableCount results) := by
  cases results with
  | nil => exact absurd rfl hne
  | cons p rest =>
    show (some ((((p :: rest).foldl handStep (zeros60, zeros60, 0)).1 ++
        ((p :: rest).foldl handStep (zeros60, zeros60, 0)).2.1)),
        ((p :: rest).foldl handStep (zeros60, zeros60, 0)).2.2) = _
    rw [foldl_handStep]
    simp [slotSpec]

/-- A degenerate hand contributes nothing. -/
lemma rawNorm60_dpose : rawNorm60 dpose = none := by
  have h : scale_factor (centered63 dpose) < EPS := by
    rw [scale_factor_centered]
    have : refNorm dpose = 0 := by
      simp [refNorm, centeredKp, dpose]
    rw [this]
    norm_num [EPS]
  simp [rawNorm60, h]

/-- C9: the two-hand assembler of `lsm-server2.py` starts from two
zero-initialised 60-value slots, places each usable per-hand fingerprint
(the mirrored vector for a `Left` hand) into the slot matching its original
handedness label, and returns the right-then-left 120-value concatenation
with the usable-hand count; with no detected hands it returns `(none, 0)`;
with zero usable hands `_perform_sign_validation` produces the negative
no-hands verdict instead of crashing, and the protocol step delivers that
verdict as a reply to the client rather than no reply. -/
theorem C9_two_hand_assembly :
    (∀ results : List RawHandPose, results ≠ [] →
      get_normalized_hand_vector2 results =
        (some (slotSpec Handedness.Right results ++ slotSpec Handedness.Left results),
         usableCount results)) ∧
    (get_normalized_hand_vector2 [] = (none, 0)) ∧
    (∀ (results : List RawHandPose) (t : String) (o : QdrantOutcome),
      usableCount results = 0 →
      perform_sign_validation2 true results t o =
        (false, "Mano(s) no detectada(s) por MediaPipe.", 0)) ∧
    (∀ (b64 : String → Except String Unit) (o : QdrantOutcome)
        (results : List RawHandPose) (s : Session2) (d : JsonMsg) (enc : String),
      usableCount results = 0 →
      d.msg_type = some "image" → d.sign = none → d.dominance = none →
      s.target_sign ≠ "NONE" →
      firstTruthy d.image_data d.data = some enc →
      b64 enc = Except.ok () →
      (step2 ⟨b64, perform_sign_validation2 true results s.target_sign o⟩ s
          (Inbound.msg d)).2 =
        [OutMsg2.verdict
          (match d.player_id with
            | some pid => pid
            | none => s.id)
          false "Mano(s) no detectada(s) por MediaPipe." s.target_sign 0]) := by
  have perf : ∀ (results : List RawHandPose) (t : String) (o : QdrantOutcome),
      usableCount results = 0 →
      perform_sign_validation2 true results t o =
        (false, "Mano(s) no detectada(s) por MediaPipe.", 0) := by
    intro results t o h0
    cases results with
    | nil => rfl
    | cons p rest =>
      rw [perform_sign_validation2, gnhv2_spec (p :: rest) (by simp), h0]
      simp
  refine ⟨fun results => gnhv2_spec results, rfl, perf, ?_⟩
  intro b64 o results s d enc h0 himg hsign hdom harm hpay hb64
  rw [perf results s.target_sign o h0]
  cases hpid : d.player_id <;>
    simp [step2, himg, hsign, hdom, harm, hpay, hb64, hpid]

/-- Witness for C9: one degenerate hand in frame, armed session — the
client still receives the negative no-hands verdict. -/
theorem C9_witness :
    (step2 ⟨fun _ => Except.ok (),
        perform_sign_validation2 true [dpose] "A" QdrantOutcome.otherError⟩
        ⟨"p0", "A", "RIGHT"⟩
        (Inbound.msg { msg_type := some "image", image_data := some "x" })).2 =
      [OutMsg2.verdict "p0" false "Mano(s) no detectada(s) por MediaPipe." "A" 0] := by
  have P := C9_two_hand_assembly.2.2.2 (fun _ => Except.ok ())
    QdrantOutcome.otherError [dpose] ⟨"p0", "A", "RIGHT"⟩
    { msg_type := some "image", image_data := some "x" } "x"
    (by simp [usableCount, usableVec, rawNorm60_dpose]) rfl rfl rfl (by decide) rfl rfl
  simpa using P

/-- C10: both servers overwrite the session's stored player id with the
value of a `player_id` key whenever one is present in a parsed inbound
object, before any command dispatch — in particular also for messages that
match no recognised command, which are answered with `UNKNOWN_COMMAND` and
leave the session's `target_sign` unchanged. -/
theorem C10_player_id_overwrite :
    (∀ (env : Env1) (s : Session1) (d : JsonMsg) (pid : String),
      d.player_id = some pid → (step1 env s (Inbound.msg d)).1.id = pid) ∧
    (∀ (env : Env1) (s : Session1) (d : JsonMsg),
      ¬((d.msg_type = some "set_target" ∧ d.sign.isSome) ∨
        (pyUpper (d.command.getD "") = "SET_TARGET" ∧ d.sign.isSome)) →
      ¬(d.msg_type = some "assign_target" ∧ d.difficulty.isSome) →
      ¬(d.msg_type = some "image" ∧ s.target_sign ≠ "NONE") →
      ¬(d.msg_type = some "stop_target" ∨
        pyUpper (d.command.getD "") = "STOP_TARGET") →
      (step1 env s (Inbound.msg d)).2 = [OutMsg1.unknown] ∧
      (step1 env s (Inbound.msg d)).1.target_sign = s.target_sign) ∧
    (∀ (env : Env2) (s : Session2) (d : JsonMsg) (pid : String),
      d.player_id = some pid → (step2 env s (Inbound.msg d)).1.id = pid) ∧
    (∀ (env : Env2) (s : Session2) (d : JsonMsg),
      ¬((d.msg_type = some "set_target" ∧ d.sign.isSome) ∨
        (pyUpper (d.command.getD "") = "SET_TARGET" ∧ d.sign.isSome)) →
      ¬((d.msg_type = some "player_config" ∧ d.dominance.isSome) ∨
        (pyUpper (d.command.getD "") = "SET_DOMINANCE" ∧ d.dominance.isSome)) →
      ¬(d.msg_type = some "image" ∧ s.target_sign ≠ "NONE") →
      ¬(d.msg_type = some "stop_target" ∨
        pyUpper (d.command.getD "") = "STOP_TARGET") →
      (step2 env s (Inbound.msg d)).2 = [OutMsg2.unknown] ∧
      (step2 env s (Inbound.msg d)).1.target_sign = s.target_sign) := by
  refine ⟨?_, ?_, ?_, ?_⟩
  · intro env s d pid hpid
    simp only [step1, hpid]
    repeat' split
    all_goals simp
  · intro env s d h1 h2 h3 h4
    cases hpid : d.player_id <;>
      simp [step1, h1, h2, h3, h4, hpid]
  · intro env s d pid hpid
    simp only [step2, hpid]
    repeat' split
    all_goals simp
  · intro env s d h1 h2 h3 h4
    cases hpid : d.player_id <;>
      simp [step2, h1, h2, h3, h4, hpid]

/-- Witness for C10: a message carrying only `player_id` overwrites the id
and is answered with `UNKNOWN_COMMAND`. -/
theorem C10_witness :
    (step1 env0 ⟨"p0", "NONE"⟩
        (Inbound.msg { player_id := some "alice" })).1.id = "alice" ∧
    (step1 env0 ⟨"p0", "NONE"⟩
        (Inbound.msg { player_id := some "alice" })).2 = [OutMsg1.unknown] := by
  have P1 := C10_player_id_overwrite.1 env0 ⟨"p0", "NONE"⟩
    { player_id := some "alice" } "alice" rfl
  have P2 := C10_player_id_overwrite.2.1 env0 ⟨"p0", "NONE"⟩
    { player_id := some "alice" } (by decide) (by decide) (by decide) (by decide)
  exact ⟨P1, P2.1⟩

end LSM
